import Mathlib

/-!
Verification of the API gateway of `Eduuhms/trabalho03` (file `api-gateway/server.js`,
given as `src/unnamed/part_003`): circuit breaker, path rewriting, reverse proxying,
health aggregation and the dashboard aggregation endpoint, shallowly embedded in Lean.

Timestamps are modelled as `Int` milliseconds (JavaScript `Date.now()`).  The
per-service circuit-breaker map is modelled as a function `String → Option CircuitState`,
mirroring the plain JS object `circuitBreaker` (a missing key reads as `undefined`,
i.e. `none`).
-/

namespace Gateway

/-- One per-service circuit-breaker record, mirroring
`{ failures: 0, open: false, lastFail: null }` in the source.
The JS field `open` is called `isOpen` here (`open` is a Lean keyword). -/
structure CircuitState where
  failures : Nat
  isOpen : Bool
  lastFail : Option Int
  deriving Repr, DecidableEq

/-- The circuit-breaker table: a JS object keyed by service name. -/
abbrev CBMap := String → Option CircuitState

/-- `const MAX_FAILURES = 3;` -/
def MAX_FAILURES : Nat := 3

/-- `const CIRCUIT_TIMEOUT = 60000; // 1 min` -/
def CIRCUIT_TIMEOUT : Int := 60000

/-- The initial `circuitBreaker` object of the source: exactly the three
service names `user-service`, `item-service`, `list-service`, each starting
at `{ failures: 0, open: false, lastFail: null }`. -/
def circuitBreaker : CBMap := fun name =>
  if name = "user-service" ∨ name = "item-service" ∨ name = "list-service" then
    some { failures := 0, isOpen := false, lastFail := none }
  else
    none

/-- Point update of the circuit-breaker table (JS mutates the record in place). -/
def setState (cb : CBMap) (name : String) (st : CircuitState) : CBMap :=
  fun n => if n = name then some st else cb n

/-- `canRequest(serviceName)` from the source.  Returns the gate decision and
the (possibly mutated) table.  The JS expression `Date.now() - state.lastFail`
coerces `null` to `0`, hence `getD 0`.  The gate rejects iff the state exists,
is open, and `now - lastFail > CIRCUIT_TIMEOUT` is false; when the strict
inequality holds it closes the breaker, zeroes `failures` and lets the request through. -/
def canRequest (now : Int) (cb : CBMap) (name : String) : Bool × CBMap :=
  match cb name with
  | none => (true, cb)
  | some st =>
    if st.isOpen = false then (true, cb)
    else if now - st.lastFail.getD 0 > CIRCUIT_TIMEOUT then
      (true, setState cb name { st with isOpen := false, failures := 0 })
    else
      (false, cb)

/-- `recordFailure(serviceName)` from the source: no-op on an untracked name;
otherwise increments `failures`, and when the new count reaches
`MAX_FAILURES` opens the breaker and stamps `lastFail = Date.now()`. -/
def recordFailure (now : Int) (cb : CBMap) (name : String) : CBMap :=
  match cb name with
  | none => cb
  | some st =>
    let f := st.failures + 1
    if f ≥ MAX_FAILURES then
      setState cb name { failures := f, isOpen := true, lastFail := some now }
    else
      setState cb name { st with failures := f }

/-- `recordSuccess(serviceName)` from the source: no-op on an untracked name;
otherwise zeroes `failures` and closes the breaker (`lastFail` is untouched). -/
def recordSuccess (cb : CBMap) (name : String) : CBMap :=
  match cb name with
  | none => cb
  | some st => setState cb name { st with failures := 0, isOpen := false }

/-- One circuit-breaker interaction, for reasoning about arbitrary interleavings. -/
inductive CBOp where
  | gate (name : String) (now : Int)
  | fail (name : String) (now : Int)
  | succ (name : String)

/-- Apply one interaction to the table. -/
def applyOp (cb : CBMap) : CBOp → CBMap
  | .gate name now => (canRequest now cb name).2
  | .fail name now => recordFailure now cb name
  | .succ name => recordSuccess cb name

/-- Run a sequence of interactions from a given table. -/
def runOps (cb : CBMap) (ops : List CBOp) : CBMap :=
  ops.foldl applyOp cb

/-- The breaker invariant claimed by the spec: an open breaker has at least
`MAX_FAILURES` recorded consecutive failures and a set `lastFail` stamp. -/
def CBInv (cb : CBMap) : Prop :=
  ∀ name st, cb name = some st → st.isOpen = true →
    MAX_FAILURES ≤ st.failures ∧ st.lastFail.isSome = true

/-! ## Path rewriting (`getTargetPath`)

Paths are modelled as `List Char` (the source paths are ASCII, so JS UTF-16
`length`/`slice` coincide with character counts). -/

/-- JS `String.prototype.replace` with a string pattern: replace the first
occurrence of `pat` only.  (`Lean`'s `String.replace` replaces all
occurrences, so we spell the JS semantics out on character lists.) -/
def jsReplaceFirst (s pat rep : List Char) : List Char :=
  if pat.isPrefixOf s then rep ++ s.drop pat.length
  else
    match s with
    | [] => []
    | c :: rest => c :: jsReplaceFirst rest pat rep

/-- JS `startsWith('/')` on the list model. -/
def startsWithSlash (s : List Char) : Bool :=
  match s with
  | '/' :: _ => true
  | _ => false

/-- `pathPrefix.replace('/api', '')` as used by `getTargetPath`. -/
def stripApi (pathPrefix : List Char) : List Char :=
  jsReplaceFirst pathPrefix "/api".toList []

/-- `getTargetPath(req, pathPrefix)` from the source, with
`req.originalUrl` passed explicitly.  Strips the exact prefix from the front
of the URL; an empty (or bare `/`) remainder maps to the service base path
`pathPrefix.replace('/api','')`; a remainder not starting with `/` gets one
prepended; a URL not starting with the prefix is returned unchanged. -/
def getTargetPath (originalUrl pathPrefix : List Char) : List Char :=
  if pathPrefix.isPrefixOf originalUrl then
    let newPath := originalUrl.drop pathPrefix.length
    if newPath = [] ∨ newPath = ['/'] then
      stripApi pathPrefix
    else
      let np := if startsWithSlash newPath then newPath else '/' :: newPath
      stripApi pathPrefix ++ np
  else
    originalUrl

/-- The four declared routing prefixes of the source
(`/api/auth*`, `/api/users*`, `/api/items*`, `/api/lists*`). -/
def declaredPrefixes : List (List Char) :=
  ["/api/auth".toList, "/api/users".toList, "/api/items".toList, "/api/lists".toList]

/-! ## Service registry and discovery -/

/-- Modelled from the spec: the shared `serviceRegistry` module
(`shared/serviceRegistry.js`) is not among the provided sources, only its
callers are.  Per the spec (§3, §4.1) it is a directory with at most one
record per name; `discover(name)` fails with `NotFound` when no record
exists for `name` and does not filter by health.  We keep just the field the
gateway reads (`service.url`). -/
structure ServiceRecord where
  url : String
  healthy : Bool
  deriving Repr, DecidableEq

/-- Modelled from the spec: the registry as a finite association list
service name ↦ record (at most one record per name is the spec invariant;
`lookup` reads the first binding). -/
abbrev Registry := List (String × ServiceRecord)

/-- Modelled from the spec: `discover(name)` fails `NotFound` iff no record
exists for `name`. -/
def discover (reg : Registry) (name : String) : Except String ServiceRecord :=
  match reg.lookup name with
  | some rec => .ok rec
  | none => .error "NotFound"

/-- `getServiceUrl(serviceName)` from the source: `discover` inside
`try`/`catch`, returning `service.url` on success and `null` on any error. -/
def getServiceUrl (reg : Registry) (name : String) : Option String :=
  match discover reg name with
  | .ok service => some service.url
  | .error _ => none

/-! ## Reverse proxy (`proxyRequest`)

The single outbound `await axios(axiosConfig)` is modelled by an oracle
`NetOutcome` for what the network did.  Axios' default `validateStatus`
resolves the promise only for statuses in `[200, 300)`; a received response
with any other status *rejects* with `error.response` set, and a
transport-level failure rejects with no `error.response`. -/

inductive NetOutcome where
  | response (status : Nat)
  | transportErr
  deriving Repr, DecidableEq

/-- Status range for which axios resolves (default `validateStatus`). -/
def axiosResolves (status : Nat) : Bool :=
  200 ≤ status ∧ status < 300

/-- Which breaker-recording call `proxyRequest` made for this request. -/
inductive Recorded where
  | success
  | failure
  | nothingRec
  deriving Repr, DecidableEq

/-- The body the gateway answers with. -/
inductive ProxyBody where
  /-- upstream body relayed verbatim (`res.status(s).json(data)`) -/
  | relayed
  /-- `{success:false, message:'Serviço temporariamente indisponível (circuit breaker)'}` -/
  | breakerMsg
  /-- `{success:false, message:'Serviço não encontrado: <name>'}` -/
  | notFoundMsg (name : String)
  /-- `{success:false, message:'Erro ao encaminhar requisição'}` -/
  | forwardErrMsg
  deriving Repr, DecidableEq

structure ProxyResult where
  status : Nat
  body : ProxyBody
  recorded : Recorded
  networkAttempt : Bool
  cb : CBMap

/-- `proxyRequest(serviceName, req, res, pathPrefix)` from the source,
restricted to its observable control flow: gate on `canRequest`, then
registry lookup, then the forwarded call; `recordSuccess` in the resolved
branch, `recordFailure` in the `catch`, relaying `error.response` when one
exists and synthesizing a 500 otherwise. -/
def proxyRequest (now : Int) (cb : CBMap) (reg : Registry) (name : String)
    (outcome : NetOutcome) : ProxyResult :=
  if (canRequest now cb name).1 = false then
    { status := 503, body := .breakerMsg, recorded := .nothingRec,
      networkAttempt := false, cb := (canRequest now cb name).2 }
  else
    match getServiceUrl reg name with
    | none =>
      { status := 503, body := .notFoundMsg name, recorded := .nothingRec,
        networkAttempt := false, cb := (canRequest now cb name).2 }
    | some _ =>
      match outcome with
      | .response s =>
        if axiosResolves s then
          { status := s, body := .relayed, recorded := .success,
            networkAttempt := true, cb := recordSuccess (canRequest now cb name).2 name }
        else
          { status := s, body := .relayed, recorded := .failure,
            networkAttempt := true, cb := recordFailure now (canRequest now cb name).2 name }
      | .transportErr =>
        { status := 500, body := .forwardErrMsg, recorded := .failure,
          networkAttempt := true, cb := recordFailure now (canRequest now cb name).2 name }

/-! ## Health aggregation (`GET /health`) -/

/-- The hardcoded list the handler iterates:
`const services = ['user-service', 'item-service', 'list-service'];` -/
def healthServices : List String :=
  ["user-service", "item-service", "list-service"]

/-- What one `axios.get(url + '/health')` probe did. -/
inductive ProbeOutcome where
  | healthy (payload : String)
  | probeErr (msg : String)
  deriving Repr, DecidableEq

/-- One entry of the `/health` response map. -/
inductive HealthEntry where
  /-- `results[name] = resp.data` -/
  | payload (p : String)
  /-- `results[name] = { status: 'unhealthy', error: e.message }` -/
  | unhealthy (error : String)
  deriving Repr, DecidableEq

/-- The per-service body of the `try`/`catch` inside the `/health` loop:
lookup fails ⇒ the thrown `'Não encontrado'` is caught; otherwise the probe
outcome decides the entry. -/
def healthEntryFor (reg : Registry) (probe : String → ProbeOutcome)
    (name : String) : HealthEntry :=
  match getServiceUrl reg name with
  | none => .unhealthy "Não encontrado"
  | some _ =>
    match probe name with
    | .healthy p => .payload p
    | .probeErr m => .unhealthy m

/-- `app.get('/health', ...)` from the source: loop over `healthServices`,
collect one entry per name, answer with `res.json(results)` (status 200). -/
def healthHandler (reg : Registry) (probe : String → ProbeOutcome) :
    Nat × List (String × HealthEntry) :=
  (200, healthServices.map fun name => (name, healthEntryFor reg probe name))

/-! ## Dashboard aggregation (`GET /api/dashboard`) -/

/-- An item inside a shopping list, as read by the dashboard handler. -/
structure ListItem where
  purchased : Bool
  deriving Repr, DecidableEq

/-- `l.summary` as read by the dashboard handler (`estimatedTotal` may be
absent; `|| 0` maps absent to 0). -/
structure ListSummary where
  estimatedTotal : Option Int
  deriving Repr, DecidableEq

/-- One shopping list as read by the dashboard handler; `items` and
`summary` are read through optional chaining (`l.items?.…`, `l.summary?.…`). -/
structure ShoppingList where
  items : Option (List ListItem)
  summary : Option ListSummary
  deriving Repr, DecidableEq

/-- The user profile fields echoed by the dashboard. -/
structure UserProfile where
  id : String
  email : String
  username : String
  deriving Repr, DecidableEq

/-- Outcome of one `await axios.get(...)` inside the dashboard handler:
resolved payload, or a rejection (any throw lands in the single `catch`). -/
inductive Fetch (α : Type) where
  | ok (payload : α)
  | failed
  deriving Repr, DecidableEq

/-- The `stats` object computed by the handler, with evaluation order and
the `reduce`/`|| 0` defaults of the source. -/
structure DashStats where
  totalLists : Nat
  totalItemsInLists : Nat
  totalPurchased : Nat
  totalEstimated : Int
  deriving Repr, DecidableEq

/-- The dashboard response. -/
inductive DashResult where
  /-- `res.status(500).json({success:false, message:'Erro ao agregar …'})` -/
  | err500
  /-- `res.status(503).json({success:false, message:'Serviços indisponíveis'})` -/
  | err503
  /-- the 200 body: user echo, stats, catalog size, and the raw lists -/
  | ok (user : UserProfile) (stats : DashStats) (totalCatalogItems : Nat)
      (lists : List ShoppingList)
  deriving Repr, DecidableEq

/-- `app.get('/api/dashboard', ...)` from the source, after the JWT
middleware: check the three URLs (503 if any is `null`), then await the
user, lists and items calls in that order — the first rejection reaches the
`catch` and yields the generic 500; when all resolve, compute the stats by
the handler's `reduce` folds (`l.items?.length || 0` etc.,
`listsResp.data.data || []` mapped to `getD []`). -/
def dashboardHandler (reg : Registry)
    (userResp : Fetch UserProfile)
    (listsResp : Fetch (Option (List ShoppingList)))
    (itemsResp : Fetch (Option (List Unit))) : DashResult :=
  match getServiceUrl reg "user-service", getServiceUrl reg "list-service",
        getServiceUrl reg "item-service" with
  | some _, some _, some _ =>
    match userResp with
    | .failed => .err500
    | .ok user =>
      match listsResp with
      | .failed => .err500
      | .ok listsData =>
        match itemsResp with
        | .failed => .err500
        | .ok itemsData =>
          let lists := listsData.getD []
          let items := itemsData.getD []
          let stats : DashStats :=
            { totalLists := lists.length
              totalItemsInLists :=
                lists.foldl (fun sum l => sum + ((l.items.map List.length).getD 0)) 0
              totalPurchased :=
                lists.foldl
                  (fun sum l =>
                    sum + ((l.items.map fun is => (is.filter (·.purchased)).length).getD 0)) 0
              totalEstimated :=
                lists.foldl
                  (fun sum l =>
                    sum + ((l.summary.bind ListSummary.estimatedTotal).getD 0)) 0 }
          .ok user stats items.length lists
  | _, _, _ => .err503

/-! ## Concrete fixtures used by witnesses and counterexamples -/

/-- A registry holding the three backend services (spec §8 scenario URLs). -/
def regAll : Registry :=
  [("user-service", { url := "http://localhost:3001", healthy := true }),
   ("item-service", { url := "http://localhost:3002", healthy := true }),
   ("list-service", { url := "http://localhost:3003", healthy := true })]

/-- `regAll` with one additional registered service unknown to the gateway. -/
def regExtra : Registry :=
  regAll ++ [("extra-service", { url := "http://localhost:3009", healthy := true })]

/-- A breaker table where `user-service` opened at time 0. -/
def cbOpenAt0 : CBMap :=
  setState circuitBreaker "user-service" { failures := 3, isOpen := true, lastFail := some 0 }

/-- A probe oracle under which every service answers its health endpoint. -/
def probeAllHealthy : String → ProbeOutcome := fun _ => .healthy "ok"

/-- A demo user profile. -/
def demoUser : UserProfile :=
  { id := "u1", email := "cliente@demo.com", username := "cliente" }

/-! ## C2: the gate decision and its timeout boundary -/

/-- C2, counterexample.  The claim says the gate check returns `false` iff the state
is Open and the elapsed time is strictly less than `openDuration`, gating
once the elapsed time is greater than or equal to it.  At exactly
`CIRCUIT_TIMEOUT` elapsed milliseconds (`now = 60000`, `lastFail = 0`) the
elapsed time equals `openDuration`, yet the source's strict `>` test fails
and `canRequest` still rejects. -/
theorem canRequest_at_exact_timeout_rejects :
    (canRequest 60000 cbOpenAt0 "user-service").1 = false ∧
    CIRCUIT_TIMEOUT ≤ (60000 : Int) - 0 := by
  decide

/-- C2, amended: the gate check (`canRequest`) on a tracked service returns `false`
iff the state is Open and the elapsed time since `lastFail` is less than *or
equal to* `openDuration` (60000 ms); only when the elapsed time strictly
exceeds `openDuration` does it close the breaker, zero the failure count and
return `true`. -/
theorem canRequest_reject_iff_within_timeout
    (now : Int) (cb : CBMap) (name : String) (st : CircuitState)
    (h : cb name = some st) :
    ((canRequest now cb name).1 = false ↔
      st.isOpen = true ∧ now - st.lastFail.getD 0 ≤ CIRCUIT_TIMEOUT) ∧
    (st.isOpen = true → CIRCUIT_TIMEOUT < now - st.lastFail.getD 0 →
      (canRequest now cb name).1 = true ∧
      (canRequest now cb name).2 name =
        some { st with isOpen := false, failures := 0 }) := by
  unfold canRequest
  rw [h]
  cases hOpen : st.isOpen with
  | false => simp [hOpen]
  | true =>
    by_cases hT : now - st.lastFail.getD 0 > CIRCUIT_TIMEOUT
    · simp only [CIRCUIT_TIMEOUT] at hT
      simp [hOpen, hT, setState, CIRCUIT_TIMEOUT]
      omega
    · simp only [CIRCUIT_TIMEOUT] at hT
      simp [hOpen, hT, CIRCUIT_TIMEOUT]
      omega

/-- C2, witness: one millisecond past the strict timeout (`now = 60001`,
opened at 0) the gate lets the request through and zeroes the failure count. -/
theorem canRequest_reject_iff_within_timeout_witness :
    (canRequest 60001 cbOpenAt0 "user-service").1 = true ∧
    (canRequest 60001 cbOpenAt0 "user-service").2 "user-service" =
      some { failures := 0, isOpen := false, lastFail := some 0 } :=
  (canRequest_reject_iff_within_timeout 60001 cbOpenAt0 "user-service"
    { failures := 3, isOpen := true, lastFail := some 0 } (by decide)).2
    rfl (by decide)

/-! ## C3: three consecutive failures open the breaker -/

/-- What one `recordFailure` does to a tracked service's record. -/
theorem recordFailure_tracked (now : Int) (cb : CBMap) (name : String)
    (st : CircuitState) (h : cb name = some st) :
    (recordFailure now cb name) name =
      some (if MAX_FAILURES ≤ st.failures + 1 then
              { failures := st.failures + 1, isOpen := true, lastFail := some now }
            else
              { st with failures := st.failures + 1 }) := by
  unfold recordFailure
  rw [h]
  simp only [ge_iff_le]
  by_cases hf : MAX_FAILURES ≤ st.failures + 1
  · simp [hf, setState]
  · simp [hf, setState]

/-- C3: starting from a tracked Closed state with zero consecutive failures,
exactly three `recordFailure` calls (times `t1, t2, t3`, no intervening
success) leave the breaker Open with `lastFail = t3` and failure count 3,
and every gate check within `CIRCUIT_TIMEOUT` of `t3` — in particular the
immediately following one — returns `false`. -/
theorem breaker_opens_after_three_failures
    (cb : CBMap) (name : String) (l : Option Int) (t1 t2 t3 : Int)
    (h : cb name = some { failures := 0, isOpen := false, lastFail := l }) :
    (recordFailure t3 (recordFailure t2 (recordFailure t1 cb name) name) name) name =
      some { failures := 3, isOpen := true, lastFail := some t3 } ∧
    ∀ t, t - t3 ≤ CIRCUIT_TIMEOUT →
      (canRequest t
        (recordFailure t3 (recordFailure t2 (recordFailure t1 cb name) name) name)
        name).1 = false := by
  have h1 : (recordFailure t1 cb name) name =
      some { failures := 1, isOpen := false, lastFail := l } := by
    have := recordFailure_tracked t1 cb name _ h
    simpa [MAX_FAILURES] using this
  have h2 : (recordFailure t2 (recordFailure t1 cb name) name) name =
      some { failures := 2, isOpen := false, lastFail := l } := by
    have := recordFailure_tracked t2 (recordFailure t1 cb name) name _ h1
    simpa [MAX_FAILURES] using this
  have h3 : (recordFailure t3 (recordFailure t2 (recordFailure t1 cb name) name) name) name =
      some { failures := 3, isOpen := true, lastFail := some t3 } := by
    have := recordFailure_tracked t3
      (recordFailure t2 (recordFailure t1 cb name) name) name _ h2
    simpa [MAX_FAILURES] using this
  refine ⟨h3, fun t ht => ?_⟩
  have hT : ¬ (t - t3 > CIRCUIT_TIMEOUT) := by
    simp only [CIRCUIT_TIMEOUT] at ht ⊢
    omega
  simp [canRequest, h3, hT]

/-- C3, witness: from the initial table, three failures on `item-service`
at times 10, 20, 30 open its breaker with `lastFail = 30`, and the gate
check at time 30 rejects. -/
theorem breaker_opens_after_three_failures_witness :
    (recordFailure 30 (recordFailure 20 (recordFailure 10 circuitBreaker "item-service")
        "item-service") "item-service") "item-service" =
      some { failures := 3, isOpen := true, lastFail := some 30 } ∧
    (canRequest 30
      (recordFailure 30 (recordFailure 20 (recordFailure 10 circuitBreaker "item-service")
        "item-service") "item-service") "item-service").1 = false := by
  have h := breaker_opens_after_three_failures circuitBreaker "item-service" none
    10 20 30 (by decide)
  exact ⟨h.1, h.2 30 (by decide)⟩

/-! ## C4: the open-breaker invariant over all interleavings -/

/-- The invariant is preserved by every single breaker interaction. -/
theorem cbInv_applyOp (cb : CBMap) (op : CBOp) (hInv : CBInv cb) :
    CBInv (applyOp cb op) := by
  cases op with
  | gate n t =>
    intro name st hst hOpen
    dsimp [applyOp] at hst
    unfold canRequest at hst
    cases hcb : cb n with
    | none =>
      rw [hcb] at hst
      exact hInv name st hst hOpen
    | some st0 =>
      rw [hcb] at hst
      dsimp only at hst
      by_cases hO : st0.isOpen = false
      · rw [if_pos hO] at hst
        exact hInv name st hst hOpen
      · rw [if_neg hO] at hst
        by_cases hT : t - st0.lastFail.getD 0 > CIRCUIT_TIMEOUT
        · rw [if_pos hT] at hst
          dsimp [setState] at hst
          by_cases hn : name = n
          · rw [if_pos hn] at hst
            cases hst
            simp at hOpen
          · rw [if_neg hn] at hst
            exact hInv name st hst hOpen
        · rw [if_neg hT] at hst
          exact hInv name st hst hOpen
  | fail n t =>
    intro name st hst hOpen
    dsimp [applyOp] at hst
    unfold recordFailure at hst
    cases hcb : cb n with
    | none =>
      rw [hcb] at hst
      exact hInv name st hst hOpen
    | some st0 =>
      rw [hcb] at hst
      dsimp only at hst
      simp only [ge_iff_le] at hst
      by_cases hf : MAX_FAILURES ≤ st0.failures + 1
      · rw [if_pos hf] at hst
        dsimp [setState] at hst
        by_cases hn : name = n
        · rw [if_pos hn] at hst
          cases hst
          exact ⟨hf, rfl⟩
        · rw [if_neg hn] at hst
          exact hInv name st hst hOpen
      · rw [if_neg hf] at hst
        dsimp [setState] at hst
        by_cases hn : name = n
        · rw [if_pos hn] at hst
          cases hst
          have := hInv n st0 hcb hOpen
          exact ⟨by omega, this.2⟩
        · rw [if_neg hn] at hst
          exact hInv name st hst hOpen
  | succ n =>
    intro name st hst hOpen
    dsimp [applyOp] at hst
    unfold recordSuccess at hst
    cases hcb : cb n with
    | none =>
      rw [hcb] at hst
      exact hInv name st hst hOpen
    | some st0 =>
      rw [hcb] at hst
      dsimp only at hst
      dsimp [setState] at hst
      by_cases hn : name = n
      · rw [if_pos hn] at hst
        cases hst
        simp at hOpen
      · rw [if_neg hn] at hst
        exact hInv name st hst hOpen

/-- The invariant holds after any interaction sequence from any table
satisfying it. -/
theorem cbInv_runOps (ops : List CBOp) :
    ∀ cb : CBMap, CBInv cb → CBInv (runOps cb ops) := by
  induction ops with
  | nil => intro cb h; exact h
  | cons op rest ih =>
    intro cb h
    exact ih (applyOp cb op) (cbInv_applyOp cb op h)

/-- The initial table satisfies the invariant (every record is closed). -/
theorem cbInv_circuitBreaker : CBInv circuitBreaker := by
  intro name st hst hOpen
  unfold circuitBreaker at hst
  split at hst
  · cases hst
    simp at hOpen
  · cases hst

/-- C4: in every state reachable from the initial breaker table by any
interleaving of gate / recordFailure / recordSuccess calls, an open
breaker has `consecutiveFailures ≥ failureThreshold` (3) and a set
`lastFail` stamp; moreover one `recordSuccess` on a tracked name resets its
failure count to 0 and closes the breaker. -/
theorem breaker_open_invariant_and_success_reset :
    (∀ (ops : List CBOp) (name : String) (st : CircuitState),
      runOps circuitBreaker ops name = some st → st.isOpen = true →
        MAX_FAILURES ≤ st.failures ∧ st.lastFail.isSome = true) ∧
    (∀ (cb : CBMap) (name : String) (st : CircuitState), cb name = some st →
      (recordSuccess cb name) name =
        some { st with failures := 0, isOpen := false }) := by
  constructor
  · intro ops name st hst hOpen
    exact cbInv_runOps ops circuitBreaker cbInv_circuitBreaker name st hst hOpen
  · intro cb name st h
    unfold recordSuccess
    rw [h]
    simp [setState]

/-- C4, witness: after three failures on `user-service` the reached state is
open with count 3 and a stamp, and a success on the open fixture resets it. -/
theorem breaker_open_invariant_and_success_reset_witness :
    (MAX_FAILURES ≤ 3 ∧ (some (0 : Int)).isSome = true) ∧
    (recordSuccess cbOpenAt0 "user-service") "user-service" =
      some { failures := 0, isOpen := false, lastFail := some 0 } :=
  ⟨breaker_open_invariant_and_success_reset.1
      [.fail "user-service" 0, .fail "user-service" 0, .fail "user-service" 0]
      "user-service" { failures := 3, isOpen := true, lastFail := some 0 }
      (by decide) rfl,
   breaker_open_invariant_and_success_reset.2 cbOpenAt0 "user-service"
      { failures := 3, isOpen := true, lastFail := some 0 } (by decide)⟩

/-! ## C5: names outside the preset table -/

/-- C5, counterexample.  The claim says circuit state is created lazily on
the first recorded outcome for an unknown name, after which the breaker can
open for it.  In the source, `circuitBreaker` is a fixed object of exactly
three names and `recordFailure` is a no-op on any other: after a first
(indeed after three) recorded failures for `payment-service` its state is
still absent and the gate check still returns `true`. -/
theorem untracked_name_state_never_created :
    (recordFailure 0 circuitBreaker "payment-service") "payment-service" = none ∧
    (canRequest 0
      (runOps circuitBreaker
        [.fail "payment-service" 0, .fail "payment-service" 0, .fail "payment-service" 0])
      "payment-service").1 = true := by
  decide

/-- C5, amended: a service name with no pre-existing circuit state is always
let through, but no state is ever created for it — `canRequest`,
`recordFailure` and `recordSuccess` all leave the table unchanged, so
failures are not tracked and the breaker can never open for such a name. -/
theorem untracked_name_allowed_but_never_tracked
    (now : Int) (cb : CBMap) (name : String) (h : cb name = none) :
    (canRequest now cb name).1 = true ∧
    (canRequest now cb name).2 = cb ∧
    recordFailure now cb name = cb ∧
    recordSuccess cb name = cb := by
  refine ⟨?_, ?_, ?_, ?_⟩ <;>
    simp [canRequest, recordFailure, recordSuccess, h]

/-- C5, witness: `payment-service` has no record in the initial table; it is
let through and all three operations leave the table untouched. -/
theorem untracked_name_allowed_but_never_tracked_witness :
    (canRequest 0 circuitBreaker "payment-service").1 = true ∧
    (canRequest 0 circuitBreaker "payment-service").2 = circuitBreaker ∧
    recordFailure 0 circuitBreaker "payment-service" = circuitBreaker ∧
    recordSuccess circuitBreaker "payment-service" = circuitBreaker :=
  untracked_name_allowed_but_never_tracked 0 circuitBreaker "payment-service"
    (by decide)

/-! ## C1: which outcomes count as breaker success -/

/-- C1, counterexample.  The claim says a received upstream 4xx/5xx response
never causes `recordFailure`.  But `await axios(...)` rejects on any status
outside `[200, 300)` (default `validateStatus`), so a received 404 lands in
the `catch` block of `proxyRequest` and `recordFailure` runs, even though
the 404 status is relayed to the client. -/
theorem proxy_upstream_404_records_failure :
    (proxyRequest 0 circuitBreaker regAll "item-service" (.response 404)).recorded =
      .failure ∧
    (proxyRequest 0 circuitBreaker regAll "item-service" (.response 404)).status = 404 ∧
    (proxyRequest 0 circuitBreaker regAll "item-service" (.response 404)).cb
        "item-service" =
      some { failures := 1, isOpen := false, lastFail := none } := by
  decide

/-- C1, amended: on a forwarded call that passed the gate and the registry
lookup, `recordSuccess` is called iff the round trip completed without a
transport-level error *and* the response status is 2xx; a received non-2xx
response is relayed (status preserved) but counts as a recorded failure, as
does a transport error (synthesized 500). -/
theorem proxy_recordSuccess_iff_2xx
    (now : Int) (cb : CBMap) (reg : Registry) (name : String)
    (outcome : NetOutcome)
    (hGate : (canRequest now cb name).1 = true)
    (hUrl : getServiceUrl reg name ≠ none) :
    (proxyRequest now cb reg name outcome).networkAttempt = true ∧
    ((proxyRequest now cb reg name outcome).recorded = .success ↔
      ∃ s, outcome = .response s ∧ axiosResolves s = true) ∧
    (∀ s, outcome = .response s →
      (proxyRequest now cb reg name outcome).status = s ∧
      (axiosResolves s = false →
        (proxyRequest now cb reg name outcome).recorded = .failure)) ∧
    (outcome = .transportErr →
      (proxyRequest now cb reg name outcome).recorded = .failure ∧
      (proxyRequest now cb reg name outcome).status = 500) := by
  unfold proxyRequest
  rw [hGate]
  cases hU : getServiceUrl reg name with
  | none => exact absurd hU hUrl
  | some u =>
    cases outcome with
    | response s =>
      by_cases hs : axiosResolves s = true
      · simp [hs]
      · simp only [Bool.not_eq_true] at hs
        simp [hs]
    | transportErr => simp

/-- C1, witness: a 200 from `item-service` through the open gate is a
network attempt, a recorded success, and is relayed with status 200. -/
theorem proxy_recordSuccess_iff_2xx_witness :
    (proxyRequest 0 circuitBreaker regAll "item-service" (.response 200)).networkAttempt
      = true ∧
    (proxyRequest 0 circuitBreaker regAll "item-service" (.response 200)).recorded =
      .success ∧
    (proxyRequest 0 circuitBreaker regAll "item-service" (.response 200)).status = 200 := by
  have h := proxy_recordSuccess_iff_2xx 0 circuitBreaker regAll "item-service"
    (.response 200) (by decide) (by decide)
  exact ⟨h.1, h.2.1.mpr ⟨200, rfl, by decide⟩, (h.2.2.1 200 rfl).1⟩

/-! ## C7: short-circuiting without a network attempt -/

/-- C7: if the breaker gate rejects, or the registry lookup yields no URL
(in particular for a name with no registry record at all — `discover` fails
`NotFound`), `proxyRequest` answers 503 with a synthesized body, makes no
network attempt, and records neither success nor failure. -/
theorem proxy_short_circuit_503
    (now : Int) (cb : CBMap) (reg : Registry) (name : String)
    (outcome : NetOutcome)
    (h : (canRequest now cb name).1 = false ∨ getServiceUrl reg name = none ∨
         reg.lookup name = none) :
    (proxyRequest now cb reg name outcome).status = 503 ∧
    (proxyRequest now cb reg name outcome).networkAttempt = false ∧
    (proxyRequest now cb reg name outcome).recorded = .nothingRec ∧
    ((proxyRequest now cb reg name outcome).body = .breakerMsg ∨
     (proxyRequest now cb reg name outcome).body = .notFoundMsg name) := by
  have hLk : reg.lookup name = none → getServiceUrl reg name = none := by
    intro hn
    simp [getServiceUrl, discover, hn]
  rcases h with hGate | hUrl | hNone
  · unfold proxyRequest
    rw [hGate]
    simp
  · rcases hG : (canRequest now cb name).1 with _ | _
    · unfold proxyRequest
      rw [hG]
      simp
    · unfold proxyRequest
      rw [hG, hUrl]
      simp
  · rcases hG : (canRequest now cb name).1 with _ | _
    · unfold proxyRequest
      rw [hG]
      simp
    · unfold proxyRequest
      rw [hG, hLk hNone]
      simp

/-- C7, witness: `ghost-service` has no registry record; a proxied call to
it answers 503 with the synthesized not-found body, no network attempt, no
recorded outcome. -/
theorem proxy_short_circuit_503_witness :
    (proxyRequest 0 circuitBreaker regAll "ghost-service" .transportErr).status = 503 ∧
    (proxyRequest 0 circuitBreaker regAll "ghost-service" .transportErr).networkAttempt
      = false ∧
    (proxyRequest 0 circuitBreaker regAll "ghost-service" .transportErr).recorded =
      .nothingRec ∧
    ((proxyRequest 0 circuitBreaker regAll "ghost-service" .transportErr).body =
        .breakerMsg ∨
     (proxyRequest 0 circuitBreaker regAll "ghost-service" .transportErr).body =
        .notFoundMsg "ghost-service") :=
  proxy_short_circuit_503 0 circuitBreaker regAll "ghost-service" .transportErr
    (.inr (.inr (by decide)))

/-! ## C6 and C10: path rewriting -/

/-- Closed form of `getTargetPath` on a URL that extends the prefix. -/
theorem getTargetPath_append (P rest : List Char) :
    getTargetPath (P ++ rest) P =
      if rest = [] ∨ rest = ['/'] then stripApi P
      else stripApi P ++ (if startsWithSlash rest then rest else '/' :: rest) := by
  simp [getTargetPath, List.isPrefixOf_iff_prefix]

/-- C6: for every inbound URL extending a declared prefix `P`, the rewrite
drops the `/api` outer segment of `P` and appends the remainder (an empty or
bare-`/` remainder maps to the service base path, a remainder without a
leading slash gets one inserted); the computed backend path always begins
with exactly one `/`; in particular `/api/items/42?x=1` rewrites to
`/items/42?x=1` and exactly `/api/items` rewrites to `/items`. -/
theorem path_rewrite_drops_api_segment (P : List Char) (hP : P ∈ declaredPrefixes)
    (rest : List Char) :
    getTargetPath (P ++ rest) P =
      (if rest = [] ∨ rest = ['/'] then stripApi P
       else stripApi P ++ (if startsWithSlash rest then rest else '/' :: rest)) ∧
    (getTargetPath (P ++ rest) P).head? = some '/' ∧
    (getTargetPath (P ++ rest) P).tail.head? ≠ some '/' ∧
    getTargetPath "/api/items/42?x=1".toList "/api/items".toList =
      "/items/42?x=1".toList ∧
    getTargetPath "/api/items".toList "/api/items".toList = "/items".toList := by
  have hEq := getTargetPath_append P rest
  simp only [declaredPrefixes, List.mem_cons, List.not_mem_nil, or_false] at hP
  refine ⟨hEq, ?_, ?_, by decide, by decide⟩ <;>
  · rw [hEq]
    rcases hP with rfl | rfl | rfl | rfl <;>
      split_ifs <;>
        first
          | decide
          | rfl
          | (simp [stripApi, jsReplaceFirst]; try decide)

/-- C6, witness: the two concrete rewrites of the claim. -/
theorem path_rewrite_drops_api_segment_witness :
    getTargetPath "/api/items/42?x=1".toList "/api/items".toList =
      "/items/42?x=1".toList ∧
    getTargetPath "/api/items".toList "/api/items".toList = "/items".toList := by
  have h := path_rewrite_drops_api_segment "/api/items".toList (by decide) []
  exact ⟨h.2.2.2.1, h.2.2.2.2⟩

/-- C10: when the declared prefix is immediately followed by a query string,
the remainder does not start with `/`, so the rewrite inserts one, producing
a slash before the query string; in particular `/api/items?name=x` rewrites
to `/items/?name=x` (not `/items?name=x`). -/
theorem path_rewrite_query_inserts_slash (P : List Char) (hP : P ∈ declaredPrefixes)
    (rest : List Char) (hq : rest.head? = some '?') :
    getTargetPath (P ++ rest) P = stripApi P ++ '/' :: rest ∧
    getTargetPath "/api/items?name=x".toList "/api/items".toList =
      "/items/?name=x".toList := by
  refine ⟨?_, by decide⟩
  have hEq := getTargetPath_append P rest
  have h1 : ¬(rest = [] ∨ rest = ['/']) := by
    rintro (rfl | rfl)
    · exact absurd hq (by decide)
    · exact absurd hq (by decide)
  have h2 : startsWithSlash rest = false := by
    rcases rest with _ | ⟨c, rest'⟩
    · rfl
    · have hc : c = '?' := by simpa using hq
      subst hc
      rfl
  rw [hEq]
  simp [h1, h2]

/-- C10, witness: the concrete query-string rewrite. -/
theorem path_rewrite_query_inserts_slash_witness :
    getTargetPath ("/api/items".toList ++ "?name=x".toList) "/api/items".toList =
      stripApi "/api/items".toList ++ '/' :: "?name=x".toList :=
  (path_rewrite_query_inserts_slash "/api/items".toList (by decide)
    "?name=x".toList (by decide)).1

/-! ## C8: dashboard aggregation -/

/-- A left fold accumulating `+ f l` is the sum of the mapped list. -/
theorem foldl_add_eq_sum {α β : Type} [AddCommMonoid β] (f : α → β)
    (L : List α) (init : β) :
    L.foldl (fun sum l => sum + f l) init = init + (L.map f).sum := by
  induction L generalizing init with
  | nil => simp
  | cons a L ih => simp [ih, add_assoc]

/-- C8: with all three backend URLs resolvable, the dashboard aborts with
the generic 500 as soon as any one of the user, lists or items calls fails —
no partial body is produced — and when all three succeed it answers with
`totalLists` the number of lists, `totalItemsInLists` the sum of per-list
item counts, `totalPurchased` the sum of per-list purchased counts,
`totalEstimated` the sum of the lists' precomputed estimated totals, and
the catalog size. -/
theorem dashboard_all_or_nothing (reg : Registry)
    (hU : getServiceUrl reg "user-service" ≠ none)
    (hL : getServiceUrl reg "list-service" ≠ none)
    (hI : getServiceUrl reg "item-service" ≠ none) :
    (∀ l i, dashboardHandler reg .failed l i = .err500) ∧
    (∀ u i, dashboardHandler reg (.ok u) .failed i = .err500) ∧
    (∀ u l, dashboardHandler reg (.ok u) (.ok l) .failed = .err500) ∧
    (∀ (u : UserProfile) (listsData : Option (List ShoppingList))
        (itemsData : Option (List Unit)),
      dashboardHandler reg (.ok u) (.ok listsData) (.ok itemsData) =
        .ok u
          { totalLists := (listsData.getD []).length
            totalItemsInLists :=
              ((listsData.getD []).map fun l => (l.items.getD []).length).sum
            totalPurchased :=
              ((listsData.getD []).map fun l =>
                ((l.items.getD []).filter (·.purchased)).length).sum
            totalEstimated :=
              ((listsData.getD []).map fun l =>
                (l.summary.bind ListSummary.estimatedTotal).getD 0).sum }
          (itemsData.getD []).length (listsData.getD [])) := by
  obtain ⟨uu, huu⟩ := Option.ne_none_iff_exists'.mp hU
  obtain ⟨lu, hlu⟩ := Option.ne_none_iff_exists'.mp hL
  obtain ⟨iu, hiu⟩ := Option.ne_none_iff_exists'.mp hI
  have hlen : ∀ l : ShoppingList,
      (l.items.map List.length).getD 0 = (l.items.getD []).length := by
    intro l
    cases l.items <;> rfl
  have hpur : ∀ l : ShoppingList,
      (l.items.map fun is => (is.filter (·.purchased)).length).getD 0 =
        ((l.items.getD []).filter (·.purchased)).length := by
    intro l
    cases l.items <;> rfl
  refine ⟨?_, ?_, ?_, ?_⟩ <;> intros <;>
    simp only [dashboardHandler, huu, hlu, hiu] <;>
    simp [foldl_add_eq_sum, hlen, hpur]

/-- C8, witness: the claim's scenario — user call succeeds, list call
fails — yields the bare 500 with no partial body. -/
theorem dashboard_all_or_nothing_witness :
    dashboardHandler regAll (.ok demoUser) .failed (.ok (some [])) = .err500 :=
  (dashboard_all_or_nothing regAll (by decide) (by decide) (by decide)).2.1
    demoUser (.ok (some []))

/-! ## C9: the aggregate health endpoint -/

/-- C9, counterexample.  The claim says the response contains one entry per
*registered* service name.  The handler iterates the hardcoded list
`['user-service','item-service','list-service']`: with an additional
registered service `extra-service` (resolvable through the registry), the
response keys are still exactly the hardcoded three and `extra-service`
gets no entry. -/
theorem health_omits_registered_extra_service :
    getServiceUrl regExtra "extra-service" = some "http://localhost:3009" ∧
    (healthHandler regExtra probeAllHealthy).2.map Prod.fst = healthServices ∧
    "extra-service" ∉ (healthHandler regExtra probeAllHealthy).2.map Prod.fst := by
  decide

/-- C9, amended: `GET /health` always answers 200 with exactly one entry
per name of the gateway's fixed service list (`user-service`,
`item-service`, `list-service`) — not per registered name; a name whose
probe fails, or whose registry lookup misses, yields an
`{status:"unhealthy", error}` entry for that name only, and each name's
entry depends only on that name's own lookup and probe, so one unreachable
service never disturbs the others' entries nor the 200 status. -/
theorem health_always_200_fixed_list (reg : Registry)
    (probe : String → ProbeOutcome) :
    (healthHandler reg probe).1 = 200 ∧
    (healthHandler reg probe).2.map Prod.fst = healthServices ∧
    (∀ name, name ∈ healthServices →
      (healthHandler reg probe).2.lookup name =
        some (healthEntryFor reg probe name)) ∧
    (∀ name m, probe name = .probeErr m → getServiceUrl reg name ≠ none →
      healthEntryFor reg probe name = .unhealthy m) ∧
    (∀ name, getServiceUrl reg name = none →
      healthEntryFor reg probe name = .unhealthy "Não encontrado") ∧
    (∀ (reg₂ : Registry) (probe₂ : String → ProbeOutcome) (name : String),
      getServiceUrl reg name = getServiceUrl reg₂ name →
      probe name = probe₂ name →
      healthEntryFor reg probe name = healthEntryFor reg₂ probe₂ name) := by
  refine ⟨rfl, ?_, ?_, ?_, ?_, ?_⟩
  · rfl
  · intro name hname
    simp only [healthServices, List.mem_cons, List.not_mem_nil, or_false] at hname
    rcases hname with rfl | rfl | rfl <;>
      simp [healthHandler, healthServices, List.lookup]
  · intro name m hp hu
    rcases h : getServiceUrl reg name with _ | u
    · exact absurd h hu
    · simp [healthEntryFor, h, hp]
  · intro name h
    simp [healthEntryFor, h]
  · intro reg₂ probe₂ name hu hp
    unfold healthEntryFor
    rw [hu, hp]

/-- C9, witness: on the three-service registry with all probes healthy, the
status is 200, `user-service` has its own entry, and an unregistered name
would report unhealthy with the lookup-miss message. -/
theorem health_always_200_fixed_list_witness :
    (healthHandler regAll probeAllHealthy).1 = 200 ∧
    (healthHandler regAll probeAllHealthy).2.lookup "user-service" =
      some (healthEntryFor regAll probeAllHealthy "user-service") ∧
    healthEntryFor regAll probeAllHealthy "ghost-service" =
      .unhealthy "Não encontrado" :=
  ⟨(health_always_200_fixed_list regAll probeAllHealthy).1,
   (health_always_200_fixed_list regAll probeAllHealthy).2.2.1 "user-service"
     (by decide),
   (health_always_200_fixed_list regAll probeAllHealthy).2.2.2.2.1 "ghost-service"
     (by decide)⟩

end Gateway
